import Mathlib

/-!
Verification of the in-process memory message queue
(pip-services3-messaging-python).

The development shallowly embeds the Python classes
`MemoryMessageQueue` and `MessagingCapabilities`
(src/pip_services3_messaging/queues/) as pure Lean functions over an
explicit queue state.  Time is modelled as a natural number of
milliseconds since the epoch; the current time is passed explicitly to
each operation that reads the clock.  Python dictionaries are modelled
as association lists with unique keys; raw indexing of a missing key
models Python's KeyError, and a comparison between a float and a
datetime models Python's TypeError, via an `Except` result.
In-place mutation of an envelope becomes value passing: each operation
returns the updated envelope the caller's alias would observe.
-/

namespace PipMessaging

/-- Runtime errors the Python code can raise on the modelled paths:
indexing a dict with a missing key (KeyError), or comparing a float
with a datetime (TypeError). -/
inductive PyError where
  | keyError
  | typeError
deriving DecidableEq, Repr

/-- Dynamic value stored in a lease entry's `expiration_time` field.
`receive` stores a `datetime` (constructor `dt`, milliseconds since the
epoch) but `renew_lock` overwrites the field with a plain float of
seconds since the epoch (constructor `fl`, kept in milliseconds so both
constructors use the same unit).  Comparing an `fl` value with a
datetime raises TypeError in Python. -/
inductive PyTime where
  | dt (ms : Nat)
  | fl (ms : Nat)
deriving DecidableEq, Repr

/-- Modelled from the spec: the repository's MessageEnvelope class is
not under src/.  Per the spec's data model, an envelope carries a
message id, message type, optional correlation id, opaque payload, a
send timestamp set by `send`, and a mutable lease reference that is
absent when the message is not leased.  `get_reference`/`set_reference`
are direct field access. -/
structure MessageEnvelope where
  message_id : String
  message_type : String
  correlation_id : Option String
  message : String
  sent_time : Option Nat
  reference : Option Nat
deriving DecidableEq, Repr

/-- Modelled from the spec: the repository's LockedMessage class is not
under src/.  Its three fields are exactly the ones MemoryMessageQueue
reads and writes: the absolute expiration time, the leased envelope,
and the lease duration (the receive timeout, in milliseconds). -/
structure LockedMessage where
  expiration_time : PyTime
  message : MessageEnvelope
  timeout : Nat
deriving DecidableEq, Repr

/-- Nine independent boolean capability flags, in the constructor order
of MessagingCapabilities.__init__ (MessagingCapabilities.py lines
19-42). -/
structure MessagingCapabilities where
  message_count : Bool
  send : Bool
  receive : Bool
  peek : Bool
  peek_batch : Bool
  renew_lock : Bool
  abandon : Bool
  dead_letter : Bool
  clear : Bool
deriving DecidableEq, Repr

/-- Accessor can_message_count (MessagingCapabilities.py line 44). -/
def MessagingCapabilities.can_message_count (c : MessagingCapabilities) : Bool :=
  c.message_count

/-- Accessor can_send (MessagingCapabilities.py line 52). -/
def MessagingCapabilities.can_send (c : MessagingCapabilities) : Bool :=
  c.send

/-- Accessor can_receive (MessagingCapabilities.py line 60). -/
def MessagingCapabilities.can_receive (c : MessagingCapabilities) : Bool :=
  c.receive

/-- Accessor can_peek (MessagingCapabilities.py line 68). -/
def MessagingCapabilities.can_peek (c : MessagingCapabilities) : Bool :=
  c.peek

/-- Accessor can_peek_batch (MessagingCapabilities.py line 76). -/
def MessagingCapabilities.can_peek_batch (c : MessagingCapabilities) : Bool :=
  c.peek_batch

/-- Accessor can_renew_lock (MessagingCapabilities.py line 84). -/
def MessagingCapabilities.can_renew_lock (c : MessagingCapabilities) : Bool :=
  c.renew_lock

/-- Accessor can_abandon (MessagingCapabilities.py line 92). -/
def MessagingCapabilities.can_abandon (c : MessagingCapabilities) : Bool :=
  c.abandon

/-- Accessor can_dead_letter (MessagingCapabilities.py line 100). -/
def MessagingCapabilities.can_dead_letter (c : MessagingCapabilities) : Bool :=
  c.dead_letter

/-- Accessor can_clear (MessagingCapabilities.py line 108). -/
def MessagingCapabilities.can_clear (c : MessagingCapabilities) : Bool :=
  c.clear

/-- Lookup in a Python dict modelled as an association list: value of
the first binding of the key, if any. -/
def dictGet {α : Type} : List (Nat × α) → Nat → Option α
  | [], _ => none
  | (k2, v) :: rest, k => if k2 = k then some v else dictGet rest k

/-- Python dict assignment d[k] = v: replaces the binding of k in
place, or appends a new binding. -/
def dictSet {α : Type} : List (Nat × α) → Nat → α → List (Nat × α)
  | [], k, v => [(k, v)]
  | (k2, v2) :: rest, k, v =>
    if k2 = k then (k, v) :: rest else (k2, v2) :: dictSet rest k v

/-- Python del d[k] on a dict that contains k: removes the (unique)
binding of k. -/
def dictDel {α : Type} : List (Nat × α) → Nat → List (Nat × α)
  | [], _ => []
  | (k2, v2) :: rest, k =>
    if k2 = k then rest else (k2, v2) :: dictDel rest k

/-- State of a MemoryMessageQueue instance: the fields assigned in
__init__ (MemoryMessageQueue.py lines 52-68).  `event` models the
threading.Event flag, `capabilities` the immutable _capabilities
object. -/
structure MemoryMessageQueue where
  capabilities : MessagingCapabilities
  messages : List MessageEnvelope
  locked_messages : List (Nat × LockedMessage)
  opened : Bool
  cancel : Bool
  event : Bool
  lock_token_sequence : Nat
  listen_interval : Nat
deriving DecidableEq, Repr

namespace MemoryMessageQueue

/-- Freshly constructed queue (MemoryMessageQueue.py lines 52-68): the
capability descriptor is built with dead_letter = False and every other
flag True (line 60). -/
def init : MemoryMessageQueue :=
  { capabilities :=
      { message_count := true, send := true, receive := true, peek := true
        peek_batch := true, renew_lock := true, abandon := true
        dead_letter := false, clear := true }
    messages := []
    locked_messages := []
    opened := false
    cancel := false
    event := false
    lock_token_sequence := 0
    listen_interval := 1000 }

/-- close (lines 92-103): marks the queue closed, requests
cancellation and sets the event so blocked receivers wake. -/
def close (q : MemoryMessageQueue) : MemoryMessageQueue :=
  { q with opened := false, cancel := true, event := true }

/-- clear (lines 105-117): empties the pending list and the lease
table and resets the cancel flag. -/
def clear (q : MemoryMessageQueue) : MemoryMessageQueue :=
  { q with messages := [], locked_messages := [], cancel := false }

/-- read_message_count (lines 130-136). -/
def read_message_count (q : MemoryMessageQueue) : Nat :=
  q.messages.length

/-- send (lines 138-157): None input is ignored; otherwise the
envelope's sent_time is stamped with the current clock, the envelope is
appended at the tail of the pending list and the event is set.  Returns
the new state and the stamped envelope the caller's alias observes. -/
def send (q : MemoryMessageQueue) (message : Option MessageEnvelope) (now : Nat) :
    MemoryMessageQueue × Option MessageEnvelope :=
  match message with
  | none => (q, none)
  | some m =>
    let m := { m with sent_time := some now }
    ({ q with messages := q.messages ++ [m], event := true }, some m)

/-- peek (lines 159-178): reads messages[0] when the pending list is
nonempty; the critical section contains no write, so the state is
returned unchanged. -/
def peek (q : MemoryMessageQueue) : MemoryMessageQueue × Option MessageEnvelope :=
  (q, q.messages.head?)

/-- peek_batch (lines 180-197): the slice messages[:message_count] for
a nonnegative count; no write occurs. -/
def peek_batch (q : MemoryMessageQueue) (message_count : Nat) :
    MemoryMessageQueue × List MessageEnvelope :=
  (q, q.messages.take message_count)

/-- Polling loop of receive (lines 219-226) in the sequential
semantics, where no concurrent send runs, so the pending list is
constant across wait slices: each iteration waits one
check_interval_ms = 100 slice, adds it to the elapsed time and pops the
head if a message appeared. -/
def receiveLoop (messages : List MessageEnvelope) (wait_timeout elapsed : Nat) :
    Option MessageEnvelope × List MessageEnvelope :=
  if _h : elapsed < wait_timeout then
    match messages with
    | m :: rest => (some m, rest)
    | [] => receiveLoop messages wait_timeout (elapsed + 100)
  else
    (none, messages)
termination_by wait_timeout - elapsed
decreasing_by omega

/-- Lease-minting section of receive (lines 231-243): mints the next
lease token, stamps it on the envelope, records a lease entry whose
expiration is now + wait_timeout (as a datetime) and whose stored
timeout is wait_timeout, then returns the envelope. -/
def receiveLease (q : MemoryMessageQueue) (m : MessageEnvelope) (wait_timeout now : Nat) :
    MemoryMessageQueue × Option MessageEnvelope :=
  let locked_token := q.lock_token_sequence
  let m1 := { m with reference := some locked_token }
  let locked_message : LockedMessage :=
    { expiration_time := PyTime.dt (now + wait_timeout)
      message := m1
      timeout := wait_timeout }
  ({ q with
      lock_token_sequence := locked_token + 1
      locked_messages := dictSet q.locked_messages locked_token locked_message }
    , some m1)

/-- receive (lines 199-249): pops the head immediately when the
pending list is nonempty, otherwise polls until wait_timeout elapses;
on success the lease-minting section runs, on timeout None is
returned with the state untouched. -/
def receive (q : MemoryMessageQueue) (wait_timeout now : Nat) :
    MemoryMessageQueue × Option MessageEnvelope :=
  match q.messages with
  | m :: rest => receiveLease { q with messages := rest } m wait_timeout now
  | [] =>
    match receiveLoop q.messages wait_timeout 0 with
    | (some m, rest) => receiveLease { q with messages := rest } m wait_timeout now
    | (none, _) => (q, none)

/-- renew_lock (lines 251-272): returns at once when the envelope has
no lease reference; otherwise indexes the lease table with the token
(raising KeyError when absent, line 266) and, when the lease is
unexpired, overwrites expiration_time with
now.timestamp() + locked_message.timeout / 1000 (line 270) — a float
built from the STORED timeout; the lock_timeout argument is never
read.  Comparing a float expiration with the datetime now raises
TypeError. -/
def renew_lock (q : MemoryMessageQueue) (message : MessageEnvelope)
    (lock_timeout now : Nat) :
    Except PyError (MemoryMessageQueue × MessageEnvelope) :=
  match message.reference with
  | none => .ok (q, message)
  | some locked_token =>
    match dictGet q.locked_messages locked_token with
    | none => .error .keyError
    | some locked_message =>
      match locked_message.expiration_time with
      | .fl _ => .error .typeError
      | .dt e =>
        if now < e then
          let lm2 : LockedMessage :=
            { locked_message with
                expiration_time := PyTime.fl (now + locked_message.timeout) }
          .ok ({ q with locked_messages := dictSet q.locked_messages locked_token lm2 }
              , message)
        else
          .ok (q, message)

/-- abandon (lines 274-305): returns at once when the envelope has no
lease reference; otherwise indexes the lease table (raising KeyError
when the token is absent, line 289 — the `is not None` guard below it
is dead code), removes the entry, clears the envelope's reference,
returns without re-sending when the lease already expired, and
otherwise re-invokes send with the same envelope.  On an error the
partially mutated state is not tracked. -/
def abandon (q : MemoryMessageQueue) (message : MessageEnvelope) (now : Nat) :
    Except PyError (MemoryMessageQueue × MessageEnvelope) :=
  match message.reference with
  | none => .ok (q, message)
  | some locked_token =>
    match dictGet q.locked_messages locked_token with
    | none => .error .keyError
    | some locked_message =>
      let q1 := { q with locked_messages := dictDel q.locked_messages locked_token }
      let m1 := { message with reference := none }
      match locked_message.expiration_time with
      | .fl _ => .error .typeError
      | .dt e =>
        if e ≤ now then
          .ok (q1, m1)
        else
          let s := send q1 (some m1) now
          .ok (s.1, s.2.getD m1)

/-- complete (lines 307-322): returns at once when the envelope has no
lease reference; otherwise deletes the lease entry unconditionally
(del raises KeyError when the token is absent, line 319) and clears
the envelope's reference. -/
def complete (q : MemoryMessageQueue) (message : MessageEnvelope) :
    Except PyError (MemoryMessageQueue × MessageEnvelope) :=
  match message.reference with
  | none => .ok (q, message)
  | some lock_key =>
    match dictGet q.locked_messages lock_key with
    | none => .error .keyError
    | some _ =>
      .ok ({ q with locked_messages := dictDel q.locked_messages lock_key }
          , { message with reference := none })

/-- move_to_dead_letter (lines 324-339): same state change as
complete; the dead-letter counter lives in an external collaborator. -/
def move_to_dead_letter (q : MemoryMessageQueue) (message : MessageEnvelope) :
    Except PyError (MemoryMessageQueue × MessageEnvelope) :=
  match message.reference with
  | none => .ok (q, message)
  | some lock_key =>
    match dictGet q.locked_messages lock_key with
    | none => .error .keyError
    | some _ =>
      .ok ({ q with locked_messages := dictDel q.locked_messages lock_key }
          , { message with reference := none })

end MemoryMessageQueue

/-- Atomic steps of the dequeue-or-wait section of receive
(MemoryMessageQueue.py lines 213-227), in source order. -/
inductive ReceiveStep where
  | acquire_lock
  | pop_head
  | event_wait
  | advance_elapsed
  | pop_head_in_loop
  | release_lock
deriving DecidableEq, Repr

/-- Step sequence of one pass through the dequeue-or-wait section of
receive, read off the source: the with-block on self._lock (line 213)
encloses the initial pop (lines 216-217) and the whole polling loop —
the self._event.wait call (line 221), the elapsed-time bookkeeping
(line 222) and the in-loop pop (lines 225-226); the lock is released
only when the block exits. -/
def receiveWaitSteps : List ReceiveStep :=
  [ReceiveStep.acquire_lock, ReceiveStep.pop_head, ReceiveStep.event_wait,
   ReceiveStep.advance_elapsed, ReceiveStep.pop_head_in_loop, ReceiveStep.release_lock]

/-- Pairs each step with whether the mutual-exclusion lock is held
while it runs, threading the held flag through acquisitions and
releases (threading.Event.wait does not release the lock). -/
def lockHeldTrace : Bool → List ReceiveStep → List (ReceiveStep × Bool)
  | _, [] => []
  | held, s :: rest =>
    let held2 :=
      if s = ReceiveStep.acquire_lock then true
      else if s = ReceiveStep.release_lock then false
      else held
    (s, held2) :: lockHeldTrace held2 rest

/-! Helper lemmas about the dictionary model and the polling loop. -/

/-- Reading back the key just assigned returns the assigned value. -/
theorem dictGet_dictSet_self {α : Type} (d : List (Nat × α)) (k : Nat) (v : α) :
    dictGet (dictSet d k v) k = some v := by
  induction d with
  | nil => simp [dictSet, dictGet]
  | cons p rest ih =>
    obtain ⟨k2, v2⟩ := p
    by_cases h : k2 = k
    · simp [dictSet, dictGet, h]
    · simp [dictSet, dictGet, h, ih]

/-- The polling loop of receive finds nothing when the pending list is
empty (and, in the sequential semantics, stays empty): it returns None
once the elapsed time reaches the timeout. -/
theorem receiveLoop_nil (wait_timeout elapsed : Nat) :
    MemoryMessageQueue.receiveLoop [] wait_timeout elapsed = (none, []) := by
  unfold MemoryMessageQueue.receiveLoop
  split
  · exact receiveLoop_nil wait_timeout (elapsed + 100)
  · rfl
termination_by wait_timeout - elapsed
decreasing_by omega

/-- On a nonempty pending list, receive pops the head and runs the
lease-minting section on it. -/
theorem receive_cons (q : MemoryMessageQueue) (m : MessageEnvelope)
    (rest : List MessageEnvelope) (wait_timeout now : Nat)
    (h : q.messages = m :: rest) :
    MemoryMessageQueue.receive q wait_timeout now =
      MemoryMessageQueue.receiveLease { q with messages := rest } m wait_timeout now := by
  unfold MemoryMessageQueue.receive
  rw [h]

/-! Concrete scenario shared by several checks, following the class
docstring example: one envelope is sent at time 0 and received with
wait_timeout 5000 at time 0, so lease token 0 is outstanding with
expiration 5000 and stored timeout 5000. -/

/-- Envelope from the MemoryMessageQueue docstring example. -/
def sampleMsg : MessageEnvelope :=
  { message_id := "123", message_type := "mymessage", correlation_id := some "123"
    message := "ABC", sent_time := none, reference := none }

/-- Queue after sending sampleMsg at time 0. -/
def sampleQ1 : MemoryMessageQueue :=
  (MemoryMessageQueue.send MemoryMessageQueue.init (some sampleMsg) 0).1

/-- Queue after then receiving with wait_timeout 5000 at time 0. -/
def sampleQ2 : MemoryMessageQueue :=
  (MemoryMessageQueue.receive sampleQ1 5000 0).1

/-- The envelope that receive returns in the sample scenario: stamped
at time 0 and carrying lease token 0. -/
def sampleM2 : MessageEnvelope :=
  { sampleMsg with sent_time := some 0, reference := some 0 }

/-- The lease entry recorded for token 0 in the sample scenario. -/
def sampleLease : LockedMessage :=
  { expiration_time := PyTime.dt 5000, message := sampleM2, timeout := 5000 }

/-- Sanity: the sample scenario evaluates as described. -/
theorem sampleQ2_eq :
    MemoryMessageQueue.receive sampleQ1 5000 0 = (sampleQ2, some sampleM2) ∧
    sampleQ2.locked_messages = [(0, sampleLease)] := by
  constructor
  · rfl
  · rfl

/-- C1: the spec says renew_lock extends an unexpired lease's
expiration to now + lock_timeout, the independently supplied argument.
The code (MemoryMessageQueue.py line 270) instead writes
now.timestamp() + locked_message.timeout / 1000: it re-uses the STORED
receive timeout (5000 ms here) and never reads lock_timeout (1000 ms
here), and it stores a float where a datetime is expected.  Evaluating
at the failing input: renewing at time 1000 with lock_timeout 1000
yields expiration fl 6000 (now + stored timeout), not a datetime at
now + lock_timeout = 2000. -/
theorem renew_lock_ignores_lock_timeout :
    MemoryMessageQueue.renew_lock sampleQ2 sampleM2 1000 1000 =
      .ok ({ sampleQ2 with locked_messages :=
              [(0, { expiration_time := PyTime.fl 6000, message := sampleM2, timeout := 5000 })] }
          , sampleM2) ∧
    PyTime.fl 6000 ≠ PyTime.dt (1000 + 1000) := by
  constructor
  · rfl
  · decide

/-- C2: the spec says that when the lease token is absent from the
lease table (for instance after clear) renew_lock, abandon, complete
and move_to_dead_letter return silently as no-ops.  The code instead
indexes the dict directly (lines 266, 289, 319, 335), so each of the
four operations raises KeyError at this input: sampleM2 still carries
lease token 0 but clear has emptied the lease table. -/
theorem lease_lookup_miss_raises :
    MemoryMessageQueue.renew_lock (MemoryMessageQueue.clear sampleQ2) sampleM2 1000 1000 =
      .error .keyError ∧
    MemoryMessageQueue.abandon (MemoryMessageQueue.clear sampleQ2) sampleM2 1000 =
      .error .keyError ∧
    MemoryMessageQueue.complete (MemoryMessageQueue.clear sampleQ2) sampleM2 =
      .error .keyError ∧
    MemoryMessageQueue.move_to_dead_letter (MemoryMessageQueue.clear sampleQ2) sampleM2 =
      .error .keyError := by
  exact ⟨rfl, rfl, rfl, rfl⟩

/-! Shape lemmas: how each settlement operation can possibly succeed. -/

/-- A successful renew_lock changes at most the lease table and returns
the envelope unchanged. -/
theorem renew_lock_ok_shape {q : MemoryMessageQueue} {m : MessageEnvelope}
    {lock_timeout now : Nat} {p : MemoryMessageQueue × MessageEnvelope}
    (h : MemoryMessageQueue.renew_lock q m lock_timeout now = .ok p) :
    ∃ d, p = ({ q with locked_messages := d }, m) := by
  unfold MemoryMessageQueue.renew_lock at h
  rcases hr : m.reference with _ | tok <;> (rw [hr] at h; dsimp only at h)
  · exact ⟨q.locked_messages, (Except.ok.inj h).symm⟩
  · rcases hg : dictGet q.locked_messages tok with _ | lm <;> (rw [hg] at h; dsimp only at h)
    · exact Except.noConfusion h
    · rcases he : lm.expiration_time with e | e <;> (rw [he] at h; dsimp only at h)
      · split at h
        · exact ⟨_, (Except.ok.inj h).symm⟩
        · exact ⟨q.locked_messages, (Except.ok.inj h).symm⟩
      · exact Except.noConfusion h

/-- A successful complete changes at most the lease table and never
changes the envelope's send timestamp. -/
theorem complete_ok_shape {q : MemoryMessageQueue} {m : MessageEnvelope}
    {p : MemoryMessageQueue × MessageEnvelope}
    (h : MemoryMessageQueue.complete q m = .ok p) :
    ∃ d, p.1 = { q with locked_messages := d } ∧ p.2.sent_time = m.sent_time := by
  unfold MemoryMessageQueue.complete at h
  rcases hr : m.reference with _ | tok <;> (rw [hr] at h; dsimp only at h)
  · obtain rfl : (q, m) = p := Except.ok.inj h
    exact ⟨q.locked_messages, rfl, rfl⟩
  · rcases hg : dictGet q.locked_messages tok with _ | lm <;> (rw [hg] at h; dsimp only at h)
    · exact Except.noConfusion h
    · obtain rfl := Except.ok.inj h
      exact ⟨dictDel q.locked_messages tok, rfl, rfl⟩

/-- A successful move_to_dead_letter changes at most the lease table
and never changes the envelope's send timestamp. -/
theorem move_to_dead_letter_ok_shape {q : MemoryMessageQueue} {m : MessageEnvelope}
    {p : MemoryMessageQueue × MessageEnvelope}
    (h : MemoryMessageQueue.move_to_dead_letter q m = .ok p) :
    ∃ d, p.1 = { q with locked_messages := d } ∧ p.2.sent_time = m.sent_time := by
  unfold MemoryMessageQueue.move_to_dead_letter at h
  rcases hr : m.reference with _ | tok <;> (rw [hr] at h; dsimp only at h)
  · obtain rfl : (q, m) = p := Except.ok.inj h
    exact ⟨q.locked_messages, rfl, rfl⟩
  · rcases hg : dictGet q.locked_messages tok with _ | lm <;> (rw [hg] at h; dsimp only at h)
    · exact Except.noConfusion h
    · obtain rfl := Except.ok.inj h
      exact ⟨dictDel q.locked_messages tok, rfl, rfl⟩

/-- A successful abandon never changes the capability descriptor. -/
theorem abandon_ok_capabilities {q : MemoryMessageQueue} {m : MessageEnvelope}
    {now : Nat} {p : MemoryMessageQueue × MessageEnvelope}
    (h : MemoryMessageQueue.abandon q m now = .ok p) :
    p.1.capabilities = q.capabilities := by
  unfold MemoryMessageQueue.abandon at h
  rcases hr : m.reference with _ | tok <;> (rw [hr] at h; dsimp only at h)
  · obtain rfl := Except.ok.inj h
    rfl
  · rcases hg : dictGet q.locked_messages tok with _ | lm <;> (rw [hg] at h; dsimp only at h)
    · exact Except.noConfusion h
    · rcases he : lm.expiration_time with e | e <;> (rw [he] at h; dsimp only at h)
      · split at h
        · obtain rfl := Except.ok.inj h
          rfl
        · obtain rfl := Except.ok.inj h
          rfl
      · exact Except.noConfusion h

/-- On a lease entry found in the table with a datetime expiration,
abandon deletes the entry, clears the envelope's reference, and
re-sends the envelope exactly when the lease has not yet expired. -/
theorem abandon_eq_of_lease {q : MemoryMessageQueue} {message : MessageEnvelope}
    {tok e now : Nat} {lm : LockedMessage}
    (href : message.reference = some tok)
    (hget : dictGet q.locked_messages tok = some lm)
    (hexp : lm.expiration_time = PyTime.dt e) :
    MemoryMessageQueue.abandon q message now =
      if e ≤ now then
        .ok ({ q with locked_messages := dictDel q.locked_messages tok }
            , { message with reference := none })
      else
        .ok ({ q with
                locked_messages := dictDel q.locked_messages tok
                messages := q.messages ++ [{ message with reference := none, sent_time := some now }]
                event := true }
            , { message with reference := none, sent_time := some now }) := by
  unfold MemoryMessageQueue.abandon
  rw [href]
  dsimp only
  rw [hget]
  dsimp only
  rw [hexp]
  dsimp only
  split <;> rfl

/-- send never changes the capability descriptor. -/
theorem send_preserves_capabilities (q : MemoryMessageQueue)
    (om : Option MessageEnvelope) (now : Nat) :
    (MemoryMessageQueue.send q om now).1.capabilities = q.capabilities := by
  cases om <;> rfl

/-- receive never changes the capability descriptor. -/
theorem receive_preserves_capabilities (q : MemoryMessageQueue) (w now : Nat) :
    (MemoryMessageQueue.receive q w now).1.capabilities = q.capabilities := by
  unfold MemoryMessageQueue.receive
  rcases hm : q.messages with _ | ⟨m, rest⟩
  · rw [receiveLoop_nil]
  · rfl

/-- C3: whenever receive returns a message, the returned envelope is
the head of the pending sequence (removed), its lease reference is the
current lease-token counter value, the counter is incremented, and a
lease entry for that token records expiration now + wait_timeout and
stores wait_timeout as the lease duration (MemoryMessageQueue.py lines
216-217 and 231-243). -/
theorem receive_leases_head (q : MemoryMessageQueue) (m : MessageEnvelope)
    (rest : List MessageEnvelope) (wait_timeout now : Nat)
    (h : q.messages = m :: rest) :
    MemoryMessageQueue.receive q wait_timeout now =
      ({ q with
          messages := rest
          lock_token_sequence := q.lock_token_sequence + 1
          locked_messages :=
            dictSet q.locked_messages q.lock_token_sequence
              ⟨PyTime.dt (now + wait_timeout)
                , { m with reference := some q.lock_token_sequence }
                , wait_timeout⟩ }
        , some { m with reference := some q.lock_token_sequence }) := by
  rw [receive_cons q m rest wait_timeout now h]
  rfl

/-- Witness for receive_leases_head at the sample scenario. -/
theorem receive_leases_head_witness :
    MemoryMessageQueue.receive sampleQ1 5000 0 = (sampleQ2, some sampleM2) :=
  receive_leases_head sampleQ1 { sampleMsg with sent_time := some 0 } [] 5000 0 rfl

/-- C4 amended: abandon on a leased envelope whose lease entry is
present with its expiration still the datetime stamped by receive
(i.e. the lease was never renewed — see abandon_renewed_lease_raises
for the renewed case, where the code raises instead): while the lease
is still valid it removes the entry, clears the reference and
re-invokes send, appending the envelope at the current tail; when the
lease is already expired it removes the entry and clears the reference
but does not re-enqueue (MemoryMessageQueue.py lines 286-305). -/
theorem abandon_lease_spec (q : MemoryMessageQueue) (message : MessageEnvelope)
    (tok e now : Nat) (lm : LockedMessage)
    (href : message.reference = some tok)
    (hget : dictGet q.locked_messages tok = some lm)
    (hexp : lm.expiration_time = PyTime.dt e) :
    (now < e →
      MemoryMessageQueue.abandon q message now =
        .ok ({ q with
                locked_messages := dictDel q.locked_messages tok
                messages := q.messages ++ [{ message with reference := none, sent_time := some now }]
                event := true }
            , { message with reference := none, sent_time := some now })) ∧
    (e ≤ now →
      MemoryMessageQueue.abandon q message now =
        .ok ({ q with locked_messages := dictDel q.locked_messages tok }
            , { message with reference := none })) := by
  constructor
  · intro hlt
    rw [abandon_eq_of_lease href hget hexp, if_neg (by omega)]
  · intro hle
    rw [abandon_eq_of_lease href hget hexp, if_pos hle]

/-- Witness for abandon_lease_spec: abandoning the sample lease at time
1000 (before expiration 5000) re-enqueues the envelope at the tail. -/
theorem abandon_lease_spec_witness :
    MemoryMessageQueue.abandon sampleQ2 sampleM2 1000 =
      .ok ({ sampleQ2 with
              locked_messages := []
              messages := [{ sampleMsg with sent_time := some 1000 }] }
          , { sampleMsg with sent_time := some 1000 }) :=
  (abandon_lease_spec sampleQ2 sampleM2 0 5000 1000 sampleLease rfl rfl rfl).1 (by decide)

/-- The sample queue after renew_lock at time 1000: lease token 0 is
still present but its expiration is now the float written by
MemoryMessageQueue.py line 270. -/
def sampleQ3 : MemoryMessageQueue :=
  { sampleQ2 with locked_messages :=
      [(0, { expiration_time := PyTime.fl 6000, message := sampleM2, timeout := 5000 })] }

/-- C4 fails on the code as frozen: it quantifies over every envelope
whose lease entry is present, but a lease renewed by renew_lock (a
reachable case: receive at 0 with wait_timeout 5000, renew at 1000,
abandon at 2000) has a float expiration_time, and abandon's comparison
expiration_time <= datetime.datetime.now() (line 296) then raises
TypeError before send runs: the entry for token 0 is present and
numerically unexpired (6000 > 2000), yet abandon neither re-enqueues
nor returns at all — it raises. -/
theorem abandon_renewed_lease_raises :
    MemoryMessageQueue.renew_lock sampleQ2 sampleM2 1000 1000 = .ok (sampleQ3, sampleM2) ∧
    dictGet sampleQ3.locked_messages 0 ≠ none ∧
    MemoryMessageQueue.abandon sampleQ3 sampleM2 2000 = .error .typeError := by
  refine ⟨rfl, by decide, rfl⟩

/-- C5: receive on a queue whose pending sequence is empty (and, with
no concurrent producer, stays empty for the whole wait) returns None
for every wait_timeout, without an error and with the queue state
unchanged; with wait_timeout = 0 the polling loop body never runs
(MemoryMessageQueue.py lines 209-229). -/
theorem receive_empty_returns_none (q : MemoryMessageQueue) (wait_timeout now : Nat)
    (h : q.messages = []) :
    MemoryMessageQueue.receive q wait_timeout now = (q, none) := by
  unfold MemoryMessageQueue.receive
  rw [h, receiveLoop_nil]

/-- Witness for receive_empty_returns_none on a fresh queue with
wait_timeout 0. -/
theorem receive_empty_returns_none_witness :
    MemoryMessageQueue.receive MemoryMessageQueue.init 0 0 =
      (MemoryMessageQueue.init, none) :=
  receive_empty_returns_none MemoryMessageQueue.init 0 0 rfl

/-- C6 fails on the code: the claim says the send timestamp is set
exactly once, at the first send, and that no later operation changes
it.  Concretely: sampleM2 was stamped sent_time = 0 at its first send,
yet abandoning it (lease still valid) re-invokes send
(MemoryMessageQueue.py line 305), which re-assigns
message.sent_time = datetime.datetime.now() (line 147), so at time
2000 the envelope comes back with sent_time = 2000 ≠ 0. -/
theorem abandon_restamps_sent_time :
    sampleM2.sent_time = some 0 ∧
    MemoryMessageQueue.abandon sampleQ2 sampleM2 2000 =
      .ok ({ sampleQ2 with
              locked_messages := []
              messages := [{ sampleMsg with sent_time := some 2000 }] }
          , { sampleMsg with sent_time := some 2000 }) ∧
    (some 2000 : Option Nat) ≠ some 0 := by
  refine ⟨rfl, rfl, by decide⟩

/-- C6 amended: send stamps the envelope's send timestamp on every
invocation, so the first send sets it and a redelivery via abandon
(which re-invokes send while the lease is valid) re-stamps it with the
redelivery time; complete, renew_lock and move_to_dead_letter never
change it. -/
theorem sent_time_stamped_per_send (q : MemoryMessageQueue) (m : MessageEnvelope)
    (now : Nat) :
    ((MemoryMessageQueue.send q (some m) now).2 = some { m with sent_time := some now }) ∧
    (∀ p, MemoryMessageQueue.complete q m = .ok p → p.2.sent_time = m.sent_time) ∧
    (∀ lock_timeout p, MemoryMessageQueue.renew_lock q m lock_timeout now = .ok p →
      p.2.sent_time = m.sent_time) ∧
    (∀ p, MemoryMessageQueue.move_to_dead_letter q m = .ok p → p.2.sent_time = m.sent_time) ∧
    (∀ tok lm e p, m.reference = some tok →
      dictGet q.locked_messages tok = some lm →
      lm.expiration_time = PyTime.dt e → now < e →
      MemoryMessageQueue.abandon q m now = .ok p → p.2.sent_time = some now) := by
  refine ⟨rfl, ?_, ?_, ?_, ?_⟩
  · intro p hp
    obtain ⟨d, _, h2⟩ := complete_ok_shape hp
    exact h2
  · intro lock_timeout p hp
    obtain ⟨d, rfl⟩ := renew_lock_ok_shape hp
    rfl
  · intro p hp
    obtain ⟨d, _, h2⟩ := move_to_dead_letter_ok_shape hp
    exact h2
  · intro tok lm e p href hget hexp hlt hp
    rw [abandon_eq_of_lease href hget hexp, if_neg (by omega)] at hp
    obtain rfl := Except.ok.inj hp
    rfl

/-- Witness for sent_time_stamped_per_send: re-sending the already
stamped sampleM2 at time 2000 stamps sent_time = 2000, and abandoning
the valid sample lease at time 2000 yields an envelope stamped 2000. -/
theorem sent_time_stamped_per_send_witness :
    (MemoryMessageQueue.send sampleQ2 (some sampleM2) 2000).2 =
      some { sampleM2 with sent_time := some 2000 } ∧
    ({ sampleMsg with sent_time := some 2000 } : MessageEnvelope).sent_time = some 2000 := by
  refine ⟨(sent_time_stamped_per_send sampleQ2 sampleM2 2000).1, ?_⟩
  exact (sent_time_stamped_per_send sampleQ2 sampleM2 2000).2.2.2.2 0 sampleLease 5000
    ({ sampleQ2 with
        locked_messages := []
        messages := [{ sampleMsg with sent_time := some 2000 }] }
      , { sampleMsg with sent_time := some 2000 })
    rfl rfl rfl (by decide) rfl

/-- C7: an envelope returned by receive carries a non-empty lease
reference; complete on it succeeds and clears the reference, after
which renew_lock, abandon, complete and move_to_dead_letter on the same
envelope all return the state and envelope unchanged (the reference
guard at MemoryMessageQueue.py lines 260-261, 283-284, 314-315 and
330-331 short-circuits), and the pending sequence no longer holds the
message. -/
theorem complete_idempotent_after_receive (q : MemoryMessageQueue) (m : MessageEnvelope)
    (rest : List MessageEnvelope) (wait_timeout now lock_timeout now2 now3 : Nat)
    (h : q.messages = m :: rest) :
    ∃ q1 m1,
      MemoryMessageQueue.receive q wait_timeout now = (q1, some m1) ∧
      m1.reference ≠ none ∧
      ∃ q2 m2,
        MemoryMessageQueue.complete q1 m1 = .ok (q2, m2) ∧
        m2.reference = none ∧
        q2.messages = rest ∧
        MemoryMessageQueue.renew_lock q2 m2 lock_timeout now2 = .ok (q2, m2) ∧
        MemoryMessageQueue.abandon q2 m2 now3 = .ok (q2, m2) ∧
        MemoryMessageQueue.complete q2 m2 = .ok (q2, m2) ∧
        MemoryMessageQueue.move_to_dead_letter q2 m2 = .ok (q2, m2) := by
  refine ⟨{ q with
      messages := rest
      lock_token_sequence := q.lock_token_sequence + 1
      locked_messages :=
        dictSet q.locked_messages q.lock_token_sequence
          ⟨PyTime.dt (now + wait_timeout)
            , { m with reference := some q.lock_token_sequence }
            , wait_timeout⟩ },
    { m with reference := some q.lock_token_sequence }, ?_, by simp, ?_⟩
  · rw [receive_cons q m rest wait_timeout now h]
    rfl
  · refine ⟨{ q with
        messages := rest
        lock_token_sequence := q.lock_token_sequence + 1
        locked_messages :=
          dictDel
            (dictSet q.locked_messages q.lock_token_sequence
              ⟨PyTime.dt (now + wait_timeout)
                , { m with reference := some q.lock_token_sequence }
                , wait_timeout⟩)
            q.lock_token_sequence },
      { m with reference := none }, ?_, rfl, rfl, rfl, rfl, rfl, rfl⟩
    unfold MemoryMessageQueue.complete
    dsimp only
    rw [dictGet_dictSet_self]

/-- Witness for complete_idempotent_after_receive at the sample
scenario. -/
theorem complete_idempotent_after_receive_witness :
    ∃ q1 m1,
      MemoryMessageQueue.receive sampleQ1 5000 0 = (q1, some m1) ∧
      m1.reference ≠ none ∧
      ∃ q2 m2,
        MemoryMessageQueue.complete q1 m1 = .ok (q2, m2) ∧
        m2.reference = none ∧
        q2.messages = [] ∧
        MemoryMessageQueue.renew_lock q2 m2 700 800 = .ok (q2, m2) ∧
        MemoryMessageQueue.abandon q2 m2 900 = .ok (q2, m2) ∧
        MemoryMessageQueue.complete q2 m2 = .ok (q2, m2) ∧
        MemoryMessageQueue.move_to_dead_letter q2 m2 = .ok (q2, m2) :=
  complete_idempotent_after_receive sampleQ1 { sampleMsg with sent_time := some 0 } []
    5000 0 700 800 900 rfl

/-- C8: peek and peek_batch leave the queue state (pending sequence,
lease table, every envelope) unchanged; peek returns the head of the
pending sequence without removing it (None when empty) and
peek_batch(n) returns the first min(n, length) pending messages in FIFO
order — a leading segment of the pending sequence — so repeated peeks
return the same head and the same batch
(MemoryMessageQueue.py lines 159-197). -/
theorem peek_noninvasive (q : MemoryMessageQueue) (n : Nat) :
    (MemoryMessageQueue.peek q).1 = q ∧
    (MemoryMessageQueue.peek q).2 = q.messages.head? ∧
    (MemoryMessageQueue.peek_batch q n).1 = q ∧
    (MemoryMessageQueue.peek_batch q n).2 = q.messages.take n ∧
    ((MemoryMessageQueue.peek_batch q n).2).length = min n q.messages.length ∧
    (MemoryMessageQueue.peek_batch q n).2 ++ q.messages.drop n = q.messages ∧
    (MemoryMessageQueue.peek (MemoryMessageQueue.peek q).1).2 =
      (MemoryMessageQueue.peek q).2 ∧
    (MemoryMessageQueue.peek_batch (MemoryMessageQueue.peek_batch q n).1 n).2 =
      (MemoryMessageQueue.peek_batch q n).2 := by
  refine ⟨rfl, rfl, rfl, rfl, ?_, ?_, rfl, rfl⟩
  · simp [MemoryMessageQueue.peek_batch]
  · exact List.take_append_drop n q.messages

/-- C9 fails on the code: the spec requires receive to release the
mutual-exclusion lock while waiting on the condition signal so that a
concurrent producer's send is never blocked for the duration of the
wait.  In the source the whole polling loop, including the
self._event.wait call, sits inside the with self._lock block
(MemoryMessageQueue.py lines 213-226), and threading.Event.wait does
not release that lock: in the lock-held trace of the section, the
event-wait step carries held = true. -/
theorem receive_event_wait_holds_lock :
    (ReceiveStep.event_wait, true) ∈ lockHeldTrace false receiveWaitSteps ∧
    ∀ p ∈ lockHeldTrace false receiveWaitSteps,
      p.1 = ReceiveStep.event_wait → p.2 = true := by
  decide

/-- Witness for receive_event_wait_holds_lock at the event-wait step
itself. -/
theorem receive_event_wait_holds_lock_witness :
    ((ReceiveStep.event_wait, true) : ReceiveStep × Bool).2 = true :=
  receive_event_wait_holds_lock.2 (ReceiveStep.event_wait, true)
    receive_event_wait_holds_lock.1 rfl

/-- C10: a freshly constructed MemoryMessageQueue exposes a capability
descriptor reporting message-count, send, receive, peek, peek-batch,
renew-lock, abandon and clear as supported but dead-letter as
unsupported (MemoryMessageQueue.py line 60), even though the queue
implements move_to_dead_letter; every can accessor of
MessagingCapabilities returns exactly the boolean passed at the same
constructor position, and no queue operation changes the descriptor. -/
theorem capabilities_flags_spec (b1 b2 b3 b4 b5 b6 b7 b8 b9 : Bool)
    (q : MemoryMessageQueue) (om : Option MessageEnvelope) (m : MessageEnvelope)
    (w now lock_timeout n : Nat) :
    (MemoryMessageQueue.init.capabilities.can_message_count = true ∧
     MemoryMessageQueue.init.capabilities.can_send = true ∧
     MemoryMessageQueue.init.capabilities.can_receive = true ∧
     MemoryMessageQueue.init.capabilities.can_peek = true ∧
     MemoryMessageQueue.init.capabilities.can_peek_batch = true ∧
     MemoryMessageQueue.init.capabilities.can_renew_lock = true ∧
     MemoryMessageQueue.init.capabilities.can_abandon = true ∧
     MemoryMessageQueue.init.capabilities.can_dead_letter = false ∧
     MemoryMessageQueue.init.capabilities.can_clear = true) ∧
    ((MessagingCapabilities.mk b1 b2 b3 b4 b5 b6 b7 b8 b9).can_message_count = b1 ∧
     (MessagingCapabilities.mk b1 b2 b3 b4 b5 b6 b7 b8 b9).can_send = b2 ∧
     (MessagingCapabilities.mk b1 b2 b3 b4 b5 b6 b7 b8 b9).can_receive = b3 ∧
     (MessagingCapabilities.mk b1 b2 b3 b4 b5 b6 b7 b8 b9).can_peek = b4 ∧
     (MessagingCapabilities.mk b1 b2 b3 b4 b5 b6 b7 b8 b9).can_peek_batch = b5 ∧
     (MessagingCapabilities.mk b1 b2 b3 b4 b5 b6 b7 b8 b9).can_renew_lock = b6 ∧
     (MessagingCapabilities.mk b1 b2 b3 b4 b5 b6 b7 b8 b9).can_abandon = b7 ∧
     (MessagingCapabilities.mk b1 b2 b3 b4 b5 b6 b7 b8 b9).can_dead_letter = b8 ∧
     (MessagingCapabilities.mk b1 b2 b3 b4 b5 b6 b7 b8 b9).can_clear = b9) ∧
    ((MemoryMessageQueue.send q om now).1.capabilities = q.capabilities ∧
     (MemoryMessageQueue.receive q w now).1.capabilities = q.capabilities ∧
     (MemoryMessageQueue.peek q).1.capabilities = q.capabilities ∧
     (MemoryMessageQueue.peek_batch q n).1.capabilities = q.capabilities ∧
     (MemoryMessageQueue.clear q).capabilities = q.capabilities ∧
     (MemoryMessageQueue.close q).capabilities = q.capabilities ∧
     (∀ p, MemoryMessageQueue.renew_lock q m lock_timeout now = .ok p →
        p.1.capabilities = q.capabilities) ∧
     (∀ p, MemoryMessageQueue.abandon q m now = .ok p →
        p.1.capabilities = q.capabilities) ∧
     (∀ p, MemoryMessageQueue.complete q m = .ok p →
        p.1.capabilities = q.capabilities) ∧
     (∀ p, MemoryMessageQueue.move_to_dead_letter q m = .ok p →
        p.1.capabilities = q.capabilities)) := by
  refine ⟨⟨rfl, rfl, rfl, rfl, rfl, rfl, rfl, rfl, rfl⟩,
          ⟨rfl, rfl, rfl, rfl, rfl, rfl, rfl, rfl, rfl⟩,
          send_preserves_capabilities q om now,
          receive_preserves_capabilities q w now,
          rfl, rfl, rfl, rfl, ?_, ?_, ?_, ?_⟩
  · intro p hp
    obtain ⟨d, rfl⟩ := renew_lock_ok_shape hp
    rfl
  · intro p hp
    exact abandon_ok_capabilities hp
  · intro p hp
    obtain ⟨d, h1, _⟩ := complete_ok_shape hp
    rw [h1]
  · intro p hp
    obtain ⟨d, h1, _⟩ := move_to_dead_letter_ok_shape hp
    rw [h1]

/-- Witness for capabilities_flags_spec: the dead-letter flag of a
fresh queue is false, and completing the sample lease leaves the
capability descriptor unchanged. -/
theorem capabilities_flags_spec_witness :
    MemoryMessageQueue.init.capabilities.can_dead_letter = false ∧
    ({ sampleQ2 with
        locked_messages := ([] : List (Nat × LockedMessage)) } :
      MemoryMessageQueue).capabilities = sampleQ2.capabilities := by
  have h := capabilities_flags_spec true true true true true true true true true
    sampleQ2 (some sampleM2) sampleM2 1 2 3 4
  refine ⟨h.1.2.2.2.2.2.2.2.1, ?_⟩
  exact h.2.2.2.2.2.2.2.2.2.2.1
    ({ sampleQ2 with locked_messages := [] }, { sampleM2 with reference := none }) rfl

end PipMessaging
